import Mathlib

/-
Shallow embedding of `src/Workspace_rss.py` (voralabs/rss_feeds), an RSS/Atom
batch-ingestion job.  Pure helper functions of the script are translated to
Lean functions; the external collaborators (HTTP fetch via `requests`, the
permissive `dateutil` string parser, timezone conversion via
`datetime.astimezone`, and the supabase Article Store) are parameters collected
in an `Env` record.  The side effects of one run (log records, existence-check
queries, insert attempts) are reified as a trace: `List Event`.
-/

namespace RSS

/- Python truthiness of an optional string attribute: `None` and the empty
string are falsy; any other string is truthy. -/
def optTruthy : Option String → Bool
  | none => false
  | some s => s ≠ ""

/- Python `a or b` on optional string attribute values: returns `a` when `a`
is truthy, otherwise returns `b` unchanged (line 89 of the source). -/
def pyOr (a b : Option String) : Option String :=
  if optTruthy a then a else b

/- Python `a or b` on plain strings (line 138 of the source): `""` is falsy. -/
def pyOrS (a b : String) : String :=
  if a = "" then b else a

/- A raw feedparser entry.  Fields are accessed defensively in the source via
`getattr(entry, field, default)`; `none` models an absent attribute (or an
attribute set to `None` where the source only tests truthiness).
`published_parsed` holds the first six components (year, month, day, hour,
minute, second) of feedparser's pre-parsed struct_time; the source uses only
`entry.published_parsed[:6]`, and a present struct_time is always truthy. -/
structure RawEntry where
  title : Option String
  link : Option String
  summary : Option String
  description : Option String
  published : Option String
  updated : Option String
  created : Option String
  published_parsed : Option (Int × Int × Int × Int × Int × Int)
  id : Option String
  guid : Option String
deriving DecidableEq

/- One configured feed: an element of the `feeds` list from config.yaml. -/
structure FeedConfig where
  name : String
  url : String
deriving DecidableEq

/- Python `str.startswith(pre)`: code-point prefix test. -/
def strStartsWith (s pre : String) : Bool :=
  pre.data.isPrefixOf s.data

/- Python `str.strip()`: drop whitespace from both ends. -/
def pyStrip (s : String) : String :=
  ⟨((s.data.dropWhile Char.isWhitespace).reverse.dropWhile Char.isWhitespace).reverse⟩

/- Source lines 55-56. -/
def is_valid_url (url : String) : Bool :=
  strStartsWith url ("http://") || strStartsWith url ("https://")

/- Source lines 58-62: `summary[:2000]` slices by code point. -/
def clean_summary (summary : String) : String :=
  if summary = "" then "" else ⟨summary.data.take 2000⟩

/- A naive UTC datetime value, as produced by
`datetime(*t[:6], tzinfo=timezone.utc)` or by the parse fallback. -/
structure DateTime6 where
  year : Nat
  month : Nat
  day : Nat
  hour : Nat
  minute : Nat
  second : Nat
deriving DecidableEq

def isLeapYear (y : Nat) : Bool :=
  (y % 4 = 0 && y % 100 ≠ 0) || y % 400 = 0

def daysInMonth (y m : Nat) : Nat :=
  if m = 2 then (if isLeapYear y then 29 else 28)
  else if m = 4 ∨ m = 6 ∨ m = 9 ∨ m = 11 then 30
  else 31

/- `datetime(year, month, day, hour, minute, second, tzinfo=timezone.utc)`
(source line 68): returns the datetime, or `none` when the constructor raises
(component out of CPython's documented ranges). -/
def mkDatetimeUTC (t : Int × Int × Int × Int × Int × Int) : Option DateTime6 :=
  let (y, mo, d, h, mi, s) := t
  if 1 ≤ y ∧ y ≤ 9999 ∧ 1 ≤ mo ∧ mo ≤ 12 ∧
     1 ≤ d ∧ d ≤ (daysInMonth y.toNat mo.toNat : Int) ∧
     0 ≤ h ∧ h ≤ 23 ∧ 0 ≤ mi ∧ mi ≤ 59 ∧ 0 ≤ s ∧ s ≤ 59 then
    some ⟨y.toNat, mo.toNat, d.toNat, h.toNat, mi.toNat, s.toNat⟩
  else none

/- Result of `dateutil.parser.parse`: a wall-clock datetime plus an optional
tzinfo, the latter abstracted to an opaque marker (`Int`). -/
structure ParsedDT where
  wall : DateTime6
  tz : Option Int
deriving DecidableEq

/- The normalized article dict built at source lines 161-169.  It has exactly
these six keys; in particular no `fetched_at` key is set by the pipeline (the
store defaults it to now() at insert time). -/
structure Article where
  source_url : String
  guid : String
  link : String
  title : String
  summary : String
  published_at : String
deriving DecidableEq

def padZeros (w n : Nat) : String :=
  let s := toString n
  (List.replicate (w - s.length) '0').asString ++ s

/- `datetime.isoformat()` for a UTC-tzinfo datetime with zero microseconds:
YYYY-MM-DDTHH:MM:SS+00:00 (source line 167). -/
def isoformatUTC (d : DateTime6) : String :=
  padZeros 4 d.year ++ "-" ++ padZeros 2 d.month ++ "-" ++ padZeros 2 d.day ++
  "T" ++ padZeros 2 d.hour ++ ":" ++ padZeros 2 d.minute ++ ":" ++
  padZeros 2 d.second ++ "+00:00"

/- Outcome of `supabase.table('articles').insert(data).execute()` as observed
by `insert_article` (source lines 104-108):
- `raised msg`: the execute call raised an exception rendered as `msg`;
- `noErrorField msg`: execute returned a result object that lacks an `error`
  attribute, so `res.error` raises an AttributeError rendered as `msg`;
- `withError err`: the result carries an `error` field with value `err`
  (`none` models `None`). -/
inductive ExecResult where
  | raised (msg : String)
  | noErrorField (msg : String)
  | withError (err : Option String)
deriving DecidableEq

/- `feedparser.parse(resp.content)` output: bozo flag, the rendered
`bozo_exception`, and the entry sequence. -/
structure ParsedFeed where
  bozo : Bool
  bozo_exception : String
  entries : List RawEntry
deriving DecidableEq

/- `requests.get` response: the HTTP status code, and the body already run
through `feedparser.parse` (the parse itself never raises; it sets bozo). -/
structure Response where
  status_code : Nat
  parsed : ParsedFeed
deriving DecidableEq

/- One observable effect of a run. `existsCheck` is the duplicate-check query
issued by `article_exists`; `insert` is an insert attempt submitted to the
store by `insert_article` (emitted whether or not the insert succeeds). -/
inductive Event where
  | logInfo (msg : String)
  | logWarning (msg : String)
  | logError (msg : String)
  | existsCheck (source_url guid : String)
  | insert (article : Article)
deriving DecidableEq

/- The external collaborators, as pure functions:
- `dateparse s`: `dateutil.parser.parse(s)`; `none` models a raised exception;
- `astimezoneUTC w off`: `dt.astimezone(timezone.utc)` for a datetime with
  wall clock `w` and tzinfo marker `off`;
- `fetch url`: `requests.get(url, ...)` composed with `feedparser.parse`;
  `.error msg` models an exception rendered as `msg`;
- `existsQuery u g`: rows of `select('id').eq('source_url',u).eq('guid',g)
  .limit(1).execute().data`; `.error msg` models a raised exception;
- `insertExec a`: the insert round-trip for article `a`. -/
structure Env where
  dateparse : String → Option ParsedDT
  astimezoneUTC : DateTime6 → Int → DateTime6
  fetch : String → Except String Response
  existsQuery : String → String → Except String (List String)
  insertExec : Article → ExecResult

/- One iteration of the fallback loop at source lines 73-84 for a single
string date field: skip a falsy value, otherwise parse; on success, a result
without tzinfo is relabeled UTC (`dt.replace(tzinfo=timezone.utc)`, wall clock
unchanged), a result with tzinfo is converted (`dt.astimezone(timezone.utc)`);
a parse exception means the loop continues (`none` here). -/
def parseOneField (env : Env) (v : Option String) : Option DateTime6 :=
  match v with
  | none => none
  | some s =>
    if s = "" then none
    else
      match env.dateparse s with
      | none => none
      | some p =>
        match p.tz with
        | none => some p.wall
        | some off => some (env.astimezoneUTC p.wall off)

/- The string-field fallback chain of `parse_datetime` (source lines 73-85):
try `published`, `updated`, `created` in order, returning the first parse. -/
def parse_date_strings (env : Env) (e : RawEntry) : Option DateTime6 :=
  match parseOneField env e.published with
  | some dt => some dt
  | none =>
    match parseOneField env e.updated with
    | some dt => some dt
    | none => parseOneField env e.created

/- Source lines 64-85: prefer the pre-parsed tuple; a constructor error falls
through to the string fields; `none` when nothing resolves. -/
def parse_datetime (env : Env) (e : RawEntry) : Option DateTime6 :=
  match e.published_parsed with
  | some t =>
    match mkDatetimeUTC t with
    | some dt => some dt
    | none => parse_date_strings env e
  | none => parse_date_strings env e

/- Source lines 87-92. -/
def get_guid (e : RawEntry) : Option String :=
  let guid := pyOr e.id e.guid
  if optTruthy guid = false ∨ guid = e.link then e.link else guid

/- The summary expression at source line 138:
`clean_summary(getattr(entry,'summary','') or getattr(entry,'description',''))`. -/
def entrySummary (e : RawEntry) : String :=
  clean_summary (pyOrS (e.summary.getD "") (e.description.getD ""))

/- Source lines 94-100: returns `bool(res.data)`; a raised query is logged and
reported as `false` (fail open).  Second component: the emitted events. -/
def article_exists (env : Env) (source_url guid : String) :
    Bool × List Event :=
  match env.existsQuery source_url guid with
  | .ok rows => (!rows.isEmpty, [.existsCheck source_url guid])
  | .error msg =>
    (false, [.existsCheck source_url guid,
             .logError ("DB check failed for guid " ++ guid ++ ": " ++ msg)])

/- Source lines 102-111: true exactly when execute returned a result whose
`error` field is falsy; a truthy `error` field, a raised execute, and a result
lacking the `error` attribute all log and return false. -/
def insert_article (env : Env) (data : Article) : Bool × List Event :=
  match env.insertExec data with
  | .withError err =>
    if optTruthy err then
      (false, [.insert data,
               .logError ("Failed to insert article: " ++ err.getD "")])
    else (true, [.insert data])
  | .noErrorField msg => (false, [.insert data, .logError ("Insert failed: " ++ msg)])
  | .raised msg => (false, [.insert data, .logError ("Insert failed: " ++ msg)])

/- The per-entry body of the loop at source lines 135-172: extraction, the
four data-quality gates in source order, the duplicate check (a positive check
skips silently), and the insert attempt with its success log. -/
def processEntry (env : Env) (name url : String) (e : RawEntry) : List Event :=
  let title := pyStrip (e.title.getD "")
  let link := pyStrip (e.link.getD "")
  let summary := entrySummary e
  let published_at := parse_datetime env e
  let guid := get_guid e
  if title = "" ∨ link = "" then
    [.logWarning ("Skipping entry missing title/link in feed " ++ name)]
  else if is_valid_url link = false then
    [.logWarning ("Skipping entry with invalid link: " ++ link)]
  else if optTruthy guid = false then
    [.logWarning ("Skipping entry with missing guid in feed " ++ name)]
  else
    match published_at with
    | none => [.logWarning ("Skipping entry with invalid/missing date in feed " ++ name)]
    | some dt =>
      let g := guid.getD ""
      let ae := article_exists env url g
      if ae.1 then ae.2
      else
        let article : Article :=
          { source_url := url, guid := g, link := link, title := title,
            summary := summary, published_at := isoformatUTC dt }
        let ia := insert_article env article
        ae.2 ++ ia.2 ++
          (if ia.1 then [.logInfo ("Inserted new article: " ++ title)] else [])

/- The entry loop at source line 135, in parser order. -/
def processEntries (env : Env) (name url : String) : List RawEntry → List Event
  | [] => []
  | e :: rest => processEntry env name url e ++ processEntries env name url rest

/- One iteration of the feed loop (source lines 117-174): the per-feed
try/except.  A fetch exception, a non-200 status, or a bozo parse each end the
feed with a single error log. -/
def processFeed (env : Env) (feed : FeedConfig) : List Event :=
  Event.logInfo ("Processing feed: " ++ feed.name ++ " (" ++ feed.url ++ ")") ::
  match env.fetch feed.url with
  | .error msg => [.logError ("Error processing feed " ++ feed.name ++ ": " ++ msg)]
  | .ok resp =>
    if resp.status_code ≠ 200 then
      [.logError ("Failed to fetch " ++ feed.url ++ ": HTTP " ++ toString resp.status_code)]
    else if resp.parsed.bozo then
      [.logError ("Feed parsing error for " ++ feed.url ++ ": " ++ resp.parsed.bozo_exception)]
    else processEntries env feed.name feed.url resp.parsed.entries

/- Source lines 116-174: process every configured feed in listed order. -/
def fetch_and_store (env : Env) : List FeedConfig → List Event
  | [] => []
  | feed :: rest => processFeed env feed ++ fetch_and_store env rest

/- Concrete test fixtures. -/

/- An environment whose store is empty, whose inserts succeed with a
falsy-`error` result, and whose network is down. -/
def emptyStoreEnv : Env where
  dateparse := fun _ => none
  astimezoneUTC := fun d _ => d
  fetch := fun _ => Except.error ("offline")
  existsQuery := fun _ _ => Except.ok []
  insertExec := fun _ => ExecResult.withError none

/- Like `emptyStoreEnv`, but every existence query finds a row. -/
def dupStoreEnv : Env :=
  { emptyStoreEnv with existsQuery := fun _ _ => Except.ok (["row1"]) }

/- Like `emptyStoreEnv`, but every existence query raises. -/
def downStoreEnv : Env :=
  { emptyStoreEnv with existsQuery := fun _ _ => Except.error ("boom") }

/- The entry of the end-to-end scenario in section 8 of the spec. -/
def entryT : RawEntry where
  title := some ("T")
  link := some ("http://x/1")
  summary := some ("S")
  description := none
  published := none
  updated := none
  created := none
  published_parsed := some (2024, 1, 1, 0, 0, 0)
  id := none
  guid := some ("g1")

/- An entry with every attribute absent. -/
def emptyEntry : RawEntry where
  title := none
  link := none
  summary := none
  description := none
  published := none
  updated := none
  created := none
  published_parsed := none
  id := none
  guid := none

/- Scenario environment: fetching anything yields HTTP 200 with a clean parse
containing exactly `entryT`; the store is empty and inserts succeed. -/
def scenarioEnv : Env :=
  { emptyStoreEnv with fetch := fun _ => Except.ok ⟨200, ⟨false, "", [entryT]⟩⟩ }

/- Like `emptyStoreEnv`, but every insert raises. -/
def raisingInsertEnv : Env :=
  { emptyStoreEnv with insertExec := fun _ => ExecResult.raised ("db down") }

/- An environment whose string parser recognizes exactly one date, with no
timezone attached. -/
def parsingEnv : Env :=
  { emptyStoreEnv with
    dateparse := fun s =>
      if s = "2024-05-05" then some ⟨⟨2024, 5, 5, 0, 0, 0⟩, none⟩ else none }

/- The article produced by the scenario entry. -/
def articleT : Article where
  source_url := "http://x"
  guid := "g1"
  link := "http://x/1"
  title := "T"
  summary := "S"
  published_at := "2024-01-01T00:00:00+00:00"

/- An entry carrying an `id` distinct from its link, a parseable `published`
string, and neither summary nor description. -/
def entryIdOnly : RawEntry :=
  { emptyEntry with title := some ("T"), link := some ("http://x/1"),
                    id := some ("i"), published := some ("2024-05-05") }

/- An entry carrying only a `guid`, distinct from its link. -/
def entryGuidOnly : RawEntry :=
  { emptyEntry with title := some ("T"), link := some ("http://x/1"),
                    guid := some ("g") }

/- An entry whose `id` equals its link (link used as a fake guid). -/
def entryFakeGuid : RawEntry :=
  { emptyEntry with title := some ("T"), link := some ("http://x/1"),
                    id := some ("http://x/1") }

/- A 2001-character string and a 2000-character string. -/
def longS : String := ⟨List.replicate 2001 'a'⟩

def exactS : String := ⟨List.replicate 2000 'b'⟩

/- Helper lemmas shared by several claim proofs. -/

/- A truthy optional string is a non-empty string. -/
theorem optTruthy_getD_ne (o : Option String) (h : optTruthy o = true) :
    o.getD "" ≠ "" := by
  cases o with
  | none => simp [optTruthy] at h
  | some s => simp [optTruthy] at h; simpa using h

/- Every insert attempt emits its `insert` event, whatever the outcome. -/
theorem insert_mem_insert_article (env : Env) (a : Article) :
    Event.insert a ∈ (insert_article env a).2 := by
  unfold insert_article
  cases env.insertExec a with
  | raised msg => simp
  | noErrorField msg => simp
  | withError err => by_cases h : optTruthy err = true <;> simp [h]

/- `insert_article` only ever emits its own insert event and error logs. -/
theorem events_insert_article (env : Env) (A : Article) (ev : Event)
    (h : ev ∈ (insert_article env A).2) :
    ev = Event.insert A ∨ ∃ m, ev = Event.logError m := by
  unfold insert_article at h
  cases hi : env.insertExec A with
  | raised msg => rw [hi] at h; simp at h; tauto
  | noErrorField msg => rw [hi] at h; simp at h; tauto
  | withError err =>
    rw [hi] at h
    by_cases ht : optTruthy err = true <;> simp [ht] at h <;> tauto

/- An `insert` event never comes from the success-log branch. -/
theorem insert_not_mem_success_log (c : Bool) (m : String) (a : Article) :
    Event.insert a ∉ (if c = true then [Event.logInfo m] else []) := by
  by_cases h : c = true <;> simp [h]

/-- Claim C9: on the feed `(name A, url http://x)` returning exactly the
scenario entry (title T, link http://x/1, guid g1, pre-parsed date
(2024,1,1,0,0,0), summary S), against an empty store, the run's trace is: the
feed info log, one duplicate-check query, exactly one insert attempt carrying
the article (source_url http://x, guid g1, link http://x/1, title T,
summary S, published_at 2024-01-01T00:00:00+00:00), and the success log. -/
theorem scenario_single_insert :
    fetch_and_store scenarioEnv [⟨"A", "http://x"⟩] =
      [Event.logInfo ("Processing feed: A (http://x)"),
       Event.existsCheck ("http://x") ("g1"),
       Event.insert articleT,
       Event.logInfo ("Inserted new article: T")] := by
  decide

/-- Claim C4: an entry whose title is empty or whitespace-only after trimming,
or whose trimmed link does not start with http:// or https://, is never
inserted: the pipeline emits no insert attempt for it and logs a warning. -/
theorem quality_gate_no_insert (env : Env) (name url : String) (e : RawEntry)
    (h : pyStrip (e.title.getD "") = "" ∨
         is_valid_url (pyStrip (e.link.getD "")) = false) :
    (∀ a, Event.insert a ∉ processEntry env name url e) ∧
    (∃ m, Event.logWarning m ∈ processEntry env name url e) := by
  by_cases h1 : pyStrip (e.title.getD "") = "" ∨ pyStrip (e.link.getD "") = ""
  · refine ⟨fun a => ?_, ⟨"Skipping entry missing title/link in feed " ++ name, ?_⟩⟩
    · simp [processEntry, h1]
    · simp [processEntry, h1]
  · have hv : is_valid_url (pyStrip (e.link.getD "")) = false := by
      rcases h with h | h
      · exact absurd (Or.inl h) h1
      · exact h
    refine ⟨fun a => ?_,
      ⟨"Skipping entry with invalid link: " ++ pyStrip (e.link.getD ""), ?_⟩⟩
    · simp [processEntry, h1, hv]
    · simp [processEntry, h1, hv]

/-- Witness for C4 at a concrete rejected entry (all attributes absent). -/
theorem quality_gate_no_insert_witness :
    (∀ a, Event.insert a ∉ processEntry emptyStoreEnv ("A") ("http://x") emptyEntry) ∧
    (∃ m, Event.logWarning m ∈ processEntry emptyStoreEnv ("A") ("http://x") emptyEntry) :=
  quality_gate_no_insert emptyStoreEnv ("A") ("http://x") emptyEntry (Or.inl (by decide))

/-- Claim C1: idempotent ingestion. For an entry that passes all data-quality
gates and whose (feed url, resolved guid) pair the duplicate check reports as
already present (the query succeeds with at least one row), the pipeline's
per-entry trace is exactly the one existence query: no insert attempt and no
log record of any kind (silent skip). -/
theorem duplicate_skip_silent (env : Env) (name url : String) (e : RawEntry)
    (dt : DateTime6) (rows : List String)
    (h1 : ¬(pyStrip (e.title.getD "") = "" ∨ pyStrip (e.link.getD "") = ""))
    (h2 : is_valid_url (pyStrip (e.link.getD "")) = true)
    (h3 : optTruthy (get_guid e) = true)
    (h4 : parse_datetime env e = some dt)
    (h5 : env.existsQuery url ((get_guid e).getD "") = Except.ok rows)
    (h6 : rows ≠ []) :
    processEntry env name url e = [Event.existsCheck url ((get_guid e).getD "")] := by
  obtain ⟨r, rs, rfl⟩ := List.exists_cons_of_ne_nil h6
  simp [processEntry, h1, h2, h3, h4, article_exists, h5]

/-- Witness for C1: the scenario entry against a store that already has it. -/
theorem duplicate_skip_silent_witness :
    processEntry dupStoreEnv ("A") ("http://x") entryT =
      [Event.existsCheck ("http://x") ("g1")] :=
  (duplicate_skip_silent dupStoreEnv ("A") ("http://x") entryT
    ⟨2024, 1, 1, 0, 0, 0⟩ ["row1"] (by decide) (by decide) (by decide)
    (by decide) rfl (by decide)).trans (by decide)

/-- Claim C6: the duplicate check fails open. When the existence query raises,
`article_exists` logs an error and returns false, and for an otherwise valid
entry the pipeline then proceeds to attempt the insert rather than skipping. -/
theorem fail_open_duplicate_check (env : Env) :
    (∀ u g msg, env.existsQuery u g = Except.error msg →
      article_exists env u g =
        (false, [Event.existsCheck u g,
                 Event.logError ("DB check failed for guid " ++ g ++ ": " ++ msg)])) ∧
    (∀ name url e dt msg,
      ¬(pyStrip (e.title.getD "") = "" ∨ pyStrip (e.link.getD "") = "") →
      is_valid_url (pyStrip (e.link.getD "")) = true →
      optTruthy (get_guid e) = true →
      parse_datetime env e = some dt →
      env.existsQuery url ((get_guid e).getD "") = Except.error msg →
      ∃ a, Event.insert a ∈ processEntry env name url e) := by
  constructor
  · intro u g msg h
    simp [article_exists, h]
  · intro name url e dt msg h1 h2 h3 h4 h5
    refine ⟨⟨url, (get_guid e).getD "", pyStrip (e.link.getD ""),
      pyStrip (e.title.getD ""), entrySummary e, isoformatUTC dt⟩, ?_⟩
    have hmem := insert_mem_insert_article env
      ⟨url, (get_guid e).getD "", pyStrip (e.link.getD ""),
       pyStrip (e.title.getD ""), entrySummary e, isoformatUTC dt⟩
    simp [processEntry, h1, h2, h3, h4, article_exists, h5]
    tauto

/-- Witness for C6: scenario entry against a store whose query raises. -/
theorem fail_open_duplicate_check_witness :
    article_exists downStoreEnv ("http://x") ("g1") =
      (false, [Event.existsCheck ("http://x") ("g1"),
               Event.logError ("DB check failed for guid g1: boom")]) ∧
    ∃ a, Event.insert a ∈ processEntry downStoreEnv ("A") ("http://x") entryT :=
  ⟨((fail_open_duplicate_check downStoreEnv).1 ("http://x") ("g1") ("boom")
      rfl).trans (by decide),
   (fail_open_duplicate_check downStoreEnv).2 ("A") ("http://x") entryT
     ⟨2024, 1, 1, 0, 0, 0⟩ ("boom") (by decide) (by decide) (by decide)
     (by decide) rfl⟩

/-- Claim C7: feed-level error isolation. Processing a feed list decomposes
feed by feed, so a failed feed never stops the run; a fetch exception, a
non-200 HTTP status, or a bozo parse each abort only that feed, leaving
exactly the feed's info log and one error log (no retry, no store traffic). -/
theorem feed_error_isolation (env : Env) :
    (∀ f fs, fetch_and_store env (f :: fs) =
      processFeed env f ++ fetch_and_store env fs) ∧
    (∀ f msg, env.fetch f.url = Except.error msg →
      processFeed env f =
        [Event.logInfo ("Processing feed: " ++ f.name ++ " (" ++ f.url ++ ")"),
         Event.logError ("Error processing feed " ++ f.name ++ ": " ++ msg)]) ∧
    (∀ f resp, env.fetch f.url = Except.ok resp → resp.status_code ≠ 200 →
      processFeed env f =
        [Event.logInfo ("Processing feed: " ++ f.name ++ " (" ++ f.url ++ ")"),
         Event.logError ("Failed to fetch " ++ f.url ++ ": HTTP " ++
           toString resp.status_code)]) ∧
    (∀ f resp, env.fetch f.url = Except.ok resp → resp.status_code = 200 →
      resp.parsed.bozo = true →
      processFeed env f =
        [Event.logInfo ("Processing feed: " ++ f.name ++ " (" ++ f.url ++ ")"),
         Event.logError ("Feed parsing error for " ++ f.url ++ ": " ++
           resp.parsed.bozo_exception)]) := by
  refine ⟨fun f fs => rfl, fun f msg h => ?_, fun f resp h hs => ?_,
    fun f resp h hs hb => ?_⟩
  · simp [processFeed, h]
  · simp [processFeed, h, hs]
  · simp [processFeed, h, hs, hb]

/-- Witness for C7 at a one-feed list whose fetch raises. -/
theorem feed_error_isolation_witness :
    fetch_and_store emptyStoreEnv [⟨"A", "http://x"⟩] =
      processFeed emptyStoreEnv ⟨"A", "http://x"⟩ ++
        fetch_and_store emptyStoreEnv [] ∧
    processFeed emptyStoreEnv ⟨"A", "http://x"⟩ =
      [Event.logInfo ("Processing feed: A (http://x)"),
       Event.logError ("Error processing feed A: offline")] :=
  ⟨(feed_error_isolation emptyStoreEnv).1 ⟨"A", "http://x"⟩ [],
   ((feed_error_isolation emptyStoreEnv).2.1 ⟨"A", "http://x"⟩ ("offline")
     rfl).trans (by decide)⟩

/-- Claim C8: insert failure handling. `insert_article` returns true exactly
when the execute result carries a falsy `error` field; a raised execute and a
result object lacking the `error` attribute are both caught, logged, and
reported as false (the entry is simply not persisted); and the entry loop
continues with the next entry regardless. -/
theorem insert_failure_handling (env : Env) :
    (∀ a, (insert_article env a).1 = true ↔
      ∃ err, env.insertExec a = ExecResult.withError err ∧ optTruthy err = false) ∧
    (∀ a msg, env.insertExec a = ExecResult.raised msg →
      insert_article env a =
        (false, [Event.insert a, Event.logError ("Insert failed: " ++ msg)])) ∧
    (∀ a msg, env.insertExec a = ExecResult.noErrorField msg →
      insert_article env a =
        (false, [Event.insert a, Event.logError ("Insert failed: " ++ msg)])) ∧
    (∀ name url e es, processEntries env name url (e :: es) =
      processEntry env name url e ++ processEntries env name url es) := by
  refine ⟨fun a => ?_, fun a msg h => ?_, fun a msg h => ?_,
    fun name url e es => rfl⟩
  · cases hi : env.insertExec a with
    | raised m => simp [insert_article, hi]
    | noErrorField m => simp [insert_article, hi]
    | withError err =>
      by_cases ht : optTruthy err = true <;>
        simp [insert_article, hi, ht]
  · simp [insert_article, h]
  · simp [insert_article, h]

/-- Witness for C8: a raising insert reported as failure at a concrete
article, and the success case of the falsy-error-field criterion. -/
theorem insert_failure_handling_witness :
    insert_article raisingInsertEnv articleT =
      (false, [Event.insert articleT, Event.logError ("Insert failed: db down")]) ∧
    ((insert_article emptyStoreEnv articleT).1 = true ↔
      ∃ err, emptyStoreEnv.insertExec articleT = ExecResult.withError err ∧
        optTruthy err = false) :=
  ⟨((insert_failure_handling raisingInsertEnv).2.1 articleT ("db down")
      rfl).trans (by decide),
   (insert_failure_handling emptyStoreEnv).1 articleT⟩

/-- Claim C2: guid resolution prefers the `id` field, then the `guid` field;
when the preferred value is falsy or equals the entry's link, the guid falls
back to the link; an entry whose id/guid equals its link still passes the guid
gate (with guid equal to the link, provided the link itself is non-empty); and
an entry whose guid is still falsy after the fallback is never inserted. -/
theorem guid_resolution (e : RawEntry) :
    (optTruthy e.id = true → e.id ≠ e.link → get_guid e = e.id) ∧
    (optTruthy e.id = false → optTruthy e.guid = true → e.guid ≠ e.link →
      get_guid e = e.guid) ∧
    (optTruthy (pyOr e.id e.guid) = false → get_guid e = e.link) ∧
    (pyOr e.id e.guid = e.link → get_guid e = e.link) ∧
    (optTruthy e.link = true → optTruthy (get_guid e) = true) ∧
    (∀ env name url, optTruthy (get_guid e) = false →
      ∀ a, Event.insert a ∉ processEntry env name url e) := by
  refine ⟨fun h hne => ?_, fun h hg hne => ?_, fun h => ?_, fun h => ?_,
    fun h => ?_, fun env name url h a => ?_⟩
  · have hp : pyOr e.id e.guid = e.id := by simp [pyOr, h]
    simp [get_guid, hp, h, hne]
  · have hp : pyOr e.id e.guid = e.guid := by simp [pyOr, h]
    simp [get_guid, hp, hg, hne]
  · simp [get_guid, h]
  · simp [get_guid, h]
  · simp only [get_guid]
    by_cases hc : optTruthy (pyOr e.id e.guid) = false ∨ pyOr e.id e.guid = e.link
    · rw [if_pos hc]; exact h
    · rw [if_neg hc]
      cases hb : optTruthy (pyOr e.id e.guid)
      · exact absurd (Or.inl hb) hc
      · rfl
  · by_cases h1 : pyStrip (e.title.getD "") = "" ∨ pyStrip (e.link.getD "") = ""
    · simp [processEntry, h1]
    · by_cases h2 : is_valid_url (pyStrip (e.link.getD "")) = false
      · simp [processEntry, h1, h2]
      · simp [processEntry, h1, h2, h]

/-- Witness for C2, exercising every branch of the resolution order at
concrete entries. -/
theorem guid_resolution_witness :
    get_guid entryIdOnly = entryIdOnly.id ∧
    get_guid entryGuidOnly = entryGuidOnly.guid ∧
    get_guid emptyEntry = emptyEntry.link ∧
    get_guid entryFakeGuid = entryFakeGuid.link ∧
    optTruthy (get_guid entryFakeGuid) = true ∧
    Event.insert articleT ∉ processEntry emptyStoreEnv ("A") ("http://x") emptyEntry :=
  ⟨(guid_resolution entryIdOnly).1 (by decide) (by decide),
   (guid_resolution entryGuidOnly).2.1 (by decide) (by decide) (by decide),
   (guid_resolution emptyEntry).2.2.1 (by decide),
   (guid_resolution entryFakeGuid).2.2.2.1 (by decide),
   (guid_resolution entryFakeGuid).2.2.2.2.1 (by decide),
   (guid_resolution emptyEntry).2.2.2.2.2 emptyStoreEnv ("A") ("http://x")
     (by decide) articleT⟩

/-- Claim C3: published_at resolution order. A present pre-parsed 6-tuple that
constructs takes precedence; a construction error falls through to the string
fields; the string fields published, updated, created are tried in that order
and the first successful parse wins; a parse without timezone keeps its wall
clock labeled UTC, a zoned parse is converted to UTC; and when nothing
resolves the entry is skipped with a warning and never inserted. -/
theorem published_at_resolution (env : Env) (e : RawEntry) :
    (∀ t dt, e.published_parsed = some t → mkDatetimeUTC t = some dt →
      parse_datetime env e = some dt) ∧
    (∀ t, e.published_parsed = some t → mkDatetimeUTC t = none →
      parse_datetime env e = parse_date_strings env e) ∧
    (e.published_parsed = none →
      parse_datetime env e = parse_date_strings env e) ∧
    (∀ dt, parseOneField env e.published = some dt →
      parse_date_strings env e = some dt) ∧
    (∀ dt, parseOneField env e.published = none →
      parseOneField env e.updated = some dt →
      parse_date_strings env e = some dt) ∧
    (parseOneField env e.published = none →
      parseOneField env e.updated = none →
      parse_date_strings env e = parseOneField env e.created) ∧
    (∀ s w, s ≠ "" → env.dateparse s = some ⟨w, none⟩ →
      parseOneField env (some s) = some w) ∧
    (∀ s w off, s ≠ "" → env.dateparse s = some ⟨w, some off⟩ →
      parseOneField env (some s) = some (env.astimezoneUTC w off)) ∧
    (∀ name url, parse_datetime env e = none →
      ∃ m, processEntry env name url e = [Event.logWarning m]) := by
  refine ⟨fun t dt ht hmk => ?_, fun t ht hmk => ?_, fun ht => ?_,
    fun dt hp => ?_, fun dt hp hu => ?_, fun hp hu => ?_,
    fun s w hs hp => ?_, fun s w off hs hp => ?_, fun name url hnone => ?_⟩
  · simp [parse_datetime, ht, hmk]
  · simp [parse_datetime, ht, hmk]
  · simp [parse_datetime, ht]
  · simp [parse_date_strings, hp]
  · simp [parse_date_strings, hp, hu]
  · simp [parse_date_strings, hp, hu]
  · simp [parseOneField, hs, hp]
  · simp [parseOneField, hs, hp]
  · by_cases h1 : pyStrip (e.title.getD "") = "" ∨ pyStrip (e.link.getD "") = ""
    · exact ⟨"Skipping entry missing title/link in feed " ++ name,
        by simp [processEntry, h1]⟩
    · by_cases h2 : is_valid_url (pyStrip (e.link.getD "")) = false
      · exact ⟨"Skipping entry with invalid link: " ++ pyStrip (e.link.getD ""),
          by simp [processEntry, h1, h2]⟩
      · by_cases h3 : optTruthy (get_guid e) = false
        · exact ⟨"Skipping entry with missing guid in feed " ++ name,
            by simp [processEntry, h1, h2, h3]⟩
        · exact ⟨"Skipping entry with invalid/missing date in feed " ++ name,
            by simp [processEntry, h1, h2, h3, hnone]⟩

/-- Witness for C3: the tuple path at the scenario entry, the no-timezone
string path at a concrete date string, and the rejection path at the empty
entry. -/
theorem published_at_resolution_witness :
    parse_datetime parsingEnv entryT = some ⟨2024, 1, 1, 0, 0, 0⟩ ∧
    parseOneField parsingEnv (some ("2024-05-05")) = some ⟨2024, 5, 5, 0, 0, 0⟩ ∧
    ∃ m, processEntry parsingEnv ("A") ("http://x") emptyEntry = [Event.logWarning m] :=
  ⟨(published_at_resolution parsingEnv entryT).1 (2024, 1, 1, 0, 0, 0)
     ⟨2024, 1, 1, 0, 0, 0⟩ rfl (by decide),
   (published_at_resolution parsingEnv emptyEntry).2.2.2.2.2.2.1
     ("2024-05-05") ⟨2024, 5, 5, 0, 0, 0⟩ (by decide) (by decide),
   (published_at_resolution parsingEnv emptyEntry).2.2.2.2.2.2.2.2
     ("A") ("http://x") (by decide)⟩

/-- Claim C5: the summary is read from the summary field, falls back to the
description field when summary is absent, and is truncated to the first 2000
characters by raw character count (a longer input yields exactly 2000
characters, an input of exactly 2000 is unchanged); an empty summary does not
prevent the insert attempt. -/
theorem summary_derivation :
    (∀ e : RawEntry, optTruthy e.summary = true →
      entrySummary e = clean_summary (e.summary.getD "")) ∧
    (∀ e : RawEntry, e.summary = none →
      entrySummary e = clean_summary (e.description.getD "")) ∧
    (∀ s : String, 2000 < s.length → (clean_summary s).length = 2000) ∧
    (∀ s : String, s.length = 2000 → clean_summary s = s) ∧
    (∀ env name url e dt,
      ¬(pyStrip (e.title.getD "") = "" ∨ pyStrip (e.link.getD "") = "") →
      is_valid_url (pyStrip (e.link.getD "")) = true →
      optTruthy (get_guid e) = true →
      parse_datetime env e = some dt →
      env.existsQuery url ((get_guid e).getD "") = Except.ok [] →
      Event.insert ⟨url, (get_guid e).getD "", pyStrip (e.link.getD ""),
        pyStrip (e.title.getD ""), entrySummary e, isoformatUTC dt⟩ ∈
        processEntry env name url e) := by
  refine ⟨fun e h => ?_, fun e h => ?_, fun s hs => ?_, fun s hs => ?_,
    fun env name url e dt h1 h2 h3 h4 h5 => ?_⟩
  · cases hs : e.summary with
    | none => rw [hs] at h; simp [optTruthy] at h
    | some s =>
      rw [hs] at h
      simp [optTruthy] at h
      simp [entrySummary, hs, pyOrS, h]
  · simp [entrySummary, h, pyOrS]
  · have hne : s ≠ "" := by
      intro hh; subst hh; simp [String.length] at hs
    have h2 : 2000 < s.data.length := hs
    simp only [clean_summary, if_neg hne]
    show (s.data.take 2000).length = 2000
    rw [List.length_take]
    omega
  · have hne : s ≠ "" := by
      intro hh; subst hh; simp [String.length] at hs
    have h2 : s.data.length = 2000 := hs
    simp only [clean_summary, if_neg hne]
    have ht : s.data.take 2000 = s.data := List.take_of_length_le (by omega)
    rw [ht]
  · have hmem := insert_mem_insert_article env
      ⟨url, (get_guid e).getD "", pyStrip (e.link.getD ""),
       pyStrip (e.title.getD ""), entrySummary e, isoformatUTC dt⟩
    simp [processEntry, h1, h2, h3, h4, article_exists, h5]
    tauto

/-- Witness for C5 at concrete entries and concrete 2001- and 2000-character
strings, with the insert attempt carrying the empty summary of the entry that
has neither summary nor description. -/
theorem summary_derivation_witness :
    entrySummary entryT = clean_summary (entryT.summary.getD "") ∧
    entrySummary emptyEntry = clean_summary (emptyEntry.description.getD "") ∧
    (clean_summary longS).length = 2000 ∧
    clean_summary exactS = exactS ∧
    Event.insert ⟨"http://x", (get_guid entryIdOnly).getD "",
      pyStrip (entryIdOnly.link.getD ""), pyStrip (entryIdOnly.title.getD ""),
      entrySummary entryIdOnly, isoformatUTC ⟨2024, 5, 5, 0, 0, 0⟩⟩ ∈
      processEntry parsingEnv ("A") ("http://x") entryIdOnly :=
  ⟨summary_derivation.1 entryT (by decide),
   summary_derivation.2.1 emptyEntry rfl,
   summary_derivation.2.2.1 longS
     (by show 2000 < (List.replicate 2001 'a').length; rw [List.length_replicate]; omega),
   summary_derivation.2.2.2.1 exactS
     (by show (List.replicate 2000 'b').length = 2000; rw [List.length_replicate]),
   summary_derivation.2.2.2.2 parsingEnv ("A") ("http://x") entryIdOnly
     ⟨2024, 5, 5, 0, 0, 0⟩ (by decide) (by decide) (by decide) (by decide) rfl⟩

/-- Claim C10: the store is touched only for fully validated entries. An entry
rejected for missing/invalid title, link, guid, or date produces exactly one
warning — no existence query and no insert attempt; and every article
submitted for insert has a non-empty title and guid, a link passing the
http/https check, and a published_at rendered from a UTC datetime (the
article record carries no fetched_at field at all). -/
theorem store_boundary_invariant (env : Env) (name url : String) (e : RawEntry) :
    ((pyStrip (e.title.getD "") = "" ∨ pyStrip (e.link.getD "") = "" ∨
      is_valid_url (pyStrip (e.link.getD "")) = false ∨
      optTruthy (get_guid e) = false ∨ parse_datetime env e = none) →
      (∃ m, processEntry env name url e = [Event.logWarning m]) ∧
      (∀ u g, Event.existsCheck u g ∉ processEntry env name url e) ∧
      (∀ a, Event.insert a ∉ processEntry env name url e)) ∧
    (∀ a, Event.insert a ∈ processEntry env name url e →
      a.title ≠ "" ∧ a.guid ≠ "" ∧ is_valid_url a.link = true ∧
      ∃ dt, a.published_at = isoformatUTC dt) := by
  constructor
  · intro hfail
    have hw : ∃ m, processEntry env name url e = [Event.logWarning m] := by
      by_cases h1 : pyStrip (e.title.getD "") = "" ∨ pyStrip (e.link.getD "") = ""
      · exact ⟨"Skipping entry missing title/link in feed " ++ name,
          by simp [processEntry, h1]⟩
      by_cases h2 : is_valid_url (pyStrip (e.link.getD "")) = false
      · exact ⟨"Skipping entry with invalid link: " ++ pyStrip (e.link.getD ""),
          by simp [processEntry, h1, h2]⟩
      by_cases h3 : optTruthy (get_guid e) = false
      · exact ⟨"Skipping entry with missing guid in feed " ++ name,
          by simp [processEntry, h1, h2, h3]⟩
      have h4 : parse_datetime env e = none := by
        rcases hfail with h | h | h | h | h
        · exact absurd (Or.inl h) h1
        · exact absurd (Or.inr h) h1
        · exact absurd h h2
        · exact absurd h h3
        · exact h
      exact ⟨"Skipping entry with invalid/missing date in feed " ++ name,
        by simp [processEntry, h1, h2, h3, h4]⟩
    obtain ⟨m, hm⟩ := hw
    exact ⟨⟨m, hm⟩, fun u g => by simp [hm], fun a => by simp [hm]⟩
  · intro a ha
    by_cases h1 : pyStrip (e.title.getD "") = "" ∨ pyStrip (e.link.getD "") = ""
    · simp [processEntry, h1] at ha
    by_cases h2 : is_valid_url (pyStrip (e.link.getD "")) = false
    · simp [processEntry, h1, h2] at ha
    by_cases h3 : optTruthy (get_guid e) = false
    · simp [processEntry, h1, h2, h3] at ha
    cases h4 : parse_datetime env e with
    | none => simp [processEntry, h1, h2, h3, h4] at ha
    | some dt =>
      have h3' : optTruthy (get_guid e) = true := by
        cases hb : optTruthy (get_guid e)
        · exact absurd hb h3
        · rfl
      have h2' : is_valid_url (pyStrip (e.link.getD "")) = true := by
        cases hb : is_valid_url (pyStrip (e.link.getD ""))
        · exact absurd hb h2
        · rfl
      have haA : a = ⟨url, (get_guid e).getD "", pyStrip (e.link.getD ""),
          pyStrip (e.title.getD ""), entrySummary e, isoformatUTC dt⟩ := by
        cases hq : env.existsQuery url ((get_guid e).getD "") with
        | ok rows =>
          cases rows with
          | nil =>
            simp [processEntry, h1, h2, h3, h4, article_exists, hq] at ha
            rcases events_insert_article env _ _ ha with h' | ⟨m, h'⟩
            · injection h'
            · simp at h'
          | cons r rs =>
            simp [processEntry, h1, h2, h3, h4, article_exists, hq] at ha
        | error msg =>
          simp [processEntry, h1, h2, h3, h4, article_exists, hq] at ha
          rcases events_insert_article env _ _ ha with h' | ⟨m, h'⟩
          · injection h'
          · simp at h'
      subst haA
      refine ⟨fun hh => h1 (Or.inl hh), optTruthy_getD_ne _ h3', h2', dt, rfl⟩

/-- Witness for C10: the fully-absent entry is rejected without store traffic,
and the scenario's submitted article satisfies the insert-side invariants. -/
theorem store_boundary_invariant_witness :
    ((∃ m, processEntry emptyStoreEnv ("A") ("http://x") emptyEntry =
        [Event.logWarning m]) ∧
     (∀ u g, Event.existsCheck u g ∉
        processEntry emptyStoreEnv ("A") ("http://x") emptyEntry) ∧
     (∀ a, Event.insert a ∉
        processEntry emptyStoreEnv ("A") ("http://x") emptyEntry)) ∧
    (articleT.title ≠ "" ∧ articleT.guid ≠ "" ∧
     is_valid_url articleT.link = true ∧
     ∃ dt, articleT.published_at = isoformatUTC dt) :=
  ⟨(store_boundary_invariant emptyStoreEnv ("A") ("http://x") emptyEntry).1
     (Or.inl (by decide)),
   (store_boundary_invariant scenarioEnv ("A") ("http://x") entryT).2
     articleT (by decide)⟩

end RSS
